import Mathlib

/-!
Verification of the modusGraph C++ wrapper layer
(`src/python/src/modusdb_wrapper.{hpp,cpp}`) against its design
specification.

The wrapper mediates every call to an external engine (the `extern "C"`
boundary functions `NewEngineC`, `CreateNamespaceC`, `MutateC`, ...).
Those boundary functions live on the far side of the FFI, so each is
modelled by its observable effect: the values its out-parameters hold
when it returns (`HandleResp`, `StrResp`).  The wrapper code itself is
translated line by line into pure Lean functions over those responses.

All failures in the C++ source are `throw std::runtime_error(msg)`; the
spec distinguishes failure kinds by throw site and message text, so the
model's `WrapperError` has one constructor per throw site, each carrying
the exact message the source builds.

`Namespace::mutate` decodes its payload with `nlohmann::json::parse`
followed by `.get<std::map<std::string, uint64_t>>()`.  That library is
not part of this repository, so the JSON fragment it implements is
modelled here: a recursive-descent parser for standard JSON (objects
kept as a key-sorted, last-duplicate-wins map, exactly as nlohmann's
default `object_t = std::map` behaves), and the arithmetic conversion
`get<uint64_t>` with C++ `static_cast` semantics on each number kind
(`number_unsigned` taken as is, `number_integer` wrapped modulo 2^64,
`number_float` truncated toward zero; the out-of-range double cast,
undefined behaviour in C++, is totalised by a final reduction modulo
2^64 and no theorem below depends on that case).  Floating point
literals are carried as exact decimal scaled integers; the rounding of
a decimal literal to the nearest double is abstracted away, and every
theorem touching floats uses literals that are exactly representable.
-/

/-- The three number kinds of nlohmann::json. -/
inductive JNum where
  /-- number_unsigned: a non-negative integer literal fitting uint64. -/
  | unsigned (n : Nat)
  /-- number_integer: a negative integer literal fitting int64. -/
  | integer (i : Int)
  /-- number_float: the literal's exact decimal value m * 10 ^ e
      (rounding to double abstracted). -/
  | float (m : Int) (e : Int)
deriving Repr

/-- JSON values as nlohmann::json holds them.  An object's members are
kept sorted by key with no duplicate, as std::map (nlohmann's default
object_t) stores them. -/
inductive JVal where
  | null
  | bool (b : Bool)
  | num (n : JNum)
  | str (s : String)
  | arr (elems : List JVal)
  | obj (members : List (String × JVal))
deriving Repr

/-- std::map's key order, std::less on std::string: bytewise
lexicographic comparison.  UTF-8 byte order coincides with codepoint
order, so it is lexicographic comparison of the codepoint lists. -/
def strLtChars : List Char → List Char → Bool
  | [], [] => false
  | [], _ :: _ => true
  | _ :: _, [] => false
  | a :: as, b :: bs =>
      if a.toNat < b.toNat then true
      else if b.toNat < a.toNat then false
      else strLtChars as bs

/-- std::less over whole strings. -/
def strLt (a b : String) : Bool := strLtChars a.data b.data

/-- Insertion into an object's member list, modelling nlohmann's SAX
parser writing through std::map operator[]: sorted by key, and a
repeated key overwrites the earlier value (last one wins). -/
def objInsert (k : String) (v : JVal) : List (String × JVal) → List (String × JVal)
  | [] => [(k, v)]
  | (k', v') :: rest =>
      if strLt k k' then (k, v) :: (k', v') :: rest
      else if k = k' then (k, v) :: rest
      else (k', v') :: objInsert k v rest

/-- JSON insignificant whitespace. -/
def isJsonWs (c : Char) : Bool :=
  c = ' ' || c = '\t' || c = '\n' || c = '\r'

/-- Skip leading JSON whitespace. -/
def skipWs : List Char → List Char
  | c :: cs => if isJsonWs c then skipWs cs else c :: cs
  | [] => []

/-- The two-character escapes of a JSON string.  The \uXXXX escape is
outside the modelled fragment (no payload in any claim uses it); the
parser rejects it rather than mistranslate it. -/
def escChar : Char → Option Char
  | '"' => some '"'
  | '\\' => some '\\'
  | '/' => some '/'
  | 'b' => some (Char.ofNat 8)
  | 'f' => some (Char.ofNat 12)
  | 'n' => some '\n'
  | 'r' => some '\r'
  | 't' => some '\t'
  | _ => none

/-- Parse the body of a JSON string after its opening quote: the string
and whatever follows the closing quote.  Unescaped control characters
are rejected, as nlohmann's lexer rejects them. -/
def parseStringBody : Nat → List Char → Option (String × List Char)
  | 0, _ => none
  | _ + 1, [] => none
  | fuel + 1, c :: rest =>
      if c = '"' then some ("", rest)
      else if c = '\\' then
        match rest with
        | [] => none
        | e :: rest2 =>
            match escChar e with
            | none => none
            | some ec =>
                match parseStringBody fuel rest2 with
                | none => none
                | some (s, r) => some (String.mk (ec :: s.data), r)
      else if c.toNat < 32 then none
      else
        match parseStringBody fuel rest with
        | none => none
        | some (s, r) => some (String.mk (c :: s.data), r)

/-- The value of a digit string, most significant first. -/
def digitsToNat (l : List Char) : Nat :=
  l.foldl (fun a c => a * 10 + (c.toNat - 48)) 0

/-- JSON int part: a single 0, or a nonzero digit followed by digits. -/
def parseIntPart : List Char → Option (List Char × List Char)
  | '0' :: rest => some (['0'], rest)
  | l =>
      let ds := l.takeWhile Char.isDigit
      if ds.isEmpty then none else some (ds, l.dropWhile Char.isDigit)

/-- JSON fraction part: optional, a dot requires at least one digit. -/
def parseFracPart : List Char → Option (List Char × List Char)
  | '.' :: rest =>
      let ds := rest.takeWhile Char.isDigit
      if ds.isEmpty then none else some (ds, rest.dropWhile Char.isDigit)
  | l => some (([] : List Char), l)

/-- Digits of an exponent with optional sign. -/
def parseExpDigits (l : List Char) : Option (Int × List Char) :=
  let (sgn, l1) :=
    match l with
    | '+' :: r => ((1 : Int), r)
    | '-' :: r => ((-1 : Int), r)
    | _ => ((1 : Int), l)
  let ds := l1.takeWhile Char.isDigit
  if ds.isEmpty then none
  else some (sgn * (digitsToNat ds : Int), l1.dropWhile Char.isDigit)

/-- JSON exponent part: optional.  Returns whether an exponent marker
was consumed (which forces the float kind), its value, and the rest. -/
def parseExpPart : List Char → Option (Bool × Int × List Char)
  | 'e' :: rest =>
      match parseExpDigits rest with
      | none => none
      | some (x, r) => some (true, x, r)
  | 'E' :: rest =>
      match parseExpDigits rest with
      | none => none
      | some (x, r) => some (true, x, r)
  | l => some (false, 0, l)

/-- Classify a parsed numeric literal the way nlohmann's lexer does:
no fraction and no exponent gives number_unsigned when the value fits
uint64, number_integer when negative and fitting int64, and otherwise
(or with a fraction/exponent) number_float. -/
def mkNumber (neg : Bool) (intDs fracDs : List Char) (exp : Int) (isFloat : Bool) : JNum :=
  if isFloat then
    let m : Int := (if neg then (-1 : Int) else 1) * (digitsToNat (intDs ++ fracDs) : Int)
    JNum.float m (exp - (fracDs.length : Int))
  else
    let n := digitsToNat intDs
    if neg then
      if n ≤ 2 ^ 63 then JNum.integer (-(n : Int)) else JNum.float (-(n : Int)) 0
    else
      if n < 2 ^ 64 then JNum.unsigned n else JNum.float (n : Int) 0

/-- Parse a JSON number literal. -/
def parseNumber (l : List Char) : Option (JNum × List Char) :=
  let (neg, l1) :=
    match l with
    | '-' :: rest => (true, rest)
    | _ => (false, l)
  match parseIntPart l1 with
  | none => none
  | some (intDs, l2) =>
      match parseFracPart l2 with
      | none => none
      | some (fracDs, l3) =>
          match parseExpPart l3 with
          | none => none
          | some (hasExp, exp, l4) =>
              some (mkNumber neg intDs fracDs exp (!fracDs.isEmpty || hasExp), l4)

mutual

/-- Parse one JSON value (fuel-bounded recursive descent). -/
def parseValue : Nat → List Char → Option (JVal × List Char)
  | 0, _ => none
  | fuel + 1, l =>
      match skipWs l with
      | 'n' :: 'u' :: 'l' :: 'l' :: r => some (JVal.null, r)
      | 't' :: 'r' :: 'u' :: 'e' :: r => some (JVal.bool true, r)
      | 'f' :: 'a' :: 'l' :: 's' :: 'e' :: r => some (JVal.bool false, r)
      | '"' :: r =>
          match parseStringBody (fuel + 1) r with
          | none => none
          | some (s, r2) => some (JVal.str s, r2)
      | '[' :: r =>
          match skipWs r with
          | ']' :: r2 => some (JVal.arr [], r2)
          | l2 => parseArrayItems fuel l2 []
      | '{' :: r =>
          match skipWs r with
          | '}' :: r2 => some (JVal.obj [], r2)
          | l2 => parseObjectMembers fuel l2 []
      | l2 =>
          match parseNumber l2 with
          | none => none
          | some (nm, r) => some (JVal.num nm, r)

/-- Parse the items of a non-empty JSON array after its opening bracket. -/
def parseArrayItems : Nat → List Char → List JVal → Option (JVal × List Char)
  | 0, _, _ => none
  | fuel + 1, l, acc =>
      match parseValue fuel l with
      | none => none
      | some (v, r) =>
          match skipWs r with
          | ',' :: r2 => parseArrayItems fuel r2 (acc ++ [v])
          | ']' :: r2 => some (JVal.arr (acc ++ [v]), r2)
          | _ => none

/-- Parse the members of a non-empty JSON object after its opening
brace, accumulating through `objInsert` (std::map semantics). -/
def parseObjectMembers : Nat → List Char → List (String × JVal) → Option (JVal × List Char)
  | 0, _, _ => none
  | fuel + 1, l, acc =>
      match skipWs l with
      | '"' :: r =>
          match parseStringBody (fuel + 1) r with
          | none => none
          | some (k, r2) =>
              match skipWs r2 with
              | ':' :: r3 =>
                  match parseValue fuel r3 with
                  | none => none
                  | some (v, r4) =>
                      match skipWs r4 with
                      | ',' :: r5 => parseObjectMembers fuel r5 (objInsert k v acc)
                      | '}' :: r5 => some (JVal.obj (objInsert k v acc), r5)
                      | _ => none
              | _ => none
      | _ => none

end

/-- Model of nlohmann::json::parse on a whole document: one value, with
nothing but whitespace after it. -/
def jsonParse (s : String) : Except String JVal :=
  match parseValue (2 * s.length + 2) s.data with
  | some (v, r) =>
      if skipWs r = [] then Except.ok v
      else Except.error "parse error: unexpected trailing characters"
  | none => Except.error "parse error: malformed JSON"

/-- Model of nlohmann's arithmetic conversion `get<uint64_t>` on one
JSON value (detail::get_arithmetic_value): each number kind is
converted with C++ `static_cast` semantics, every non-number kind
throws type_error 302.  `number_integer` holds a negative int64, whose
cast to uint64 wraps modulo 2^64; `number_float` is truncated toward
zero (Int.tdiv is C++ truncation division), then totalised modulo 2^64
(the out-of-range double cast is undefined behaviour in C++ and no
theorem depends on it). -/
def getU64 : JVal → Except String Nat
  | JVal.num (JNum.unsigned n) => Except.ok n
  | JVal.num (JNum.integer i) => Except.ok (Int.toNat (Int.emod i (2 ^ 64)))
  | JVal.num (JNum.float m e) =>
      Except.ok
        (Int.toNat
          (Int.emod
            (if 0 ≤ e then m * 10 ^ Int.toNat e else Int.tdiv m (10 ^ Int.toNat (-e)))
            (2 ^ 64)))
  | _ => Except.error "type error 302: type must be number"

/-- Model of `get<std::map<std::string, uint64_t>>` applied to the
members of an object: each member's value converted in order, the
first failing conversion aborting the whole conversion.  The member
list is already key-sorted and duplicate-free (std::map), so inserting
the converted pairs into the destination std::map keeps the list shape
as is. -/
def getMapEntries : List (String × JVal) → Except String (List (String × Nat))
  | [] => Except.ok []
  | (k, v) :: rest =>
      match getU64 v with
      | Except.error e => Except.error e
      | Except.ok n =>
          match getMapEntries rest with
          | Except.error e => Except.error e
          | Except.ok r => Except.ok ((k, n) :: r)

/-- Lines 112-118 of modusdb_wrapper.cpp inside the try block:
`nlohmann::json::parse(result)` followed by
`j.get<std::map<std::string, uint64_t>>()`.  A non-object document
throws type_error 302 from the map conversion. -/
def decodeMutationResult (payload : String) : Except String (List (String × Nat)) :=
  match jsonParse payload with
  | Except.error e => Except.error e
  | Except.ok (JVal.obj members) => getMapEntries members
  | Except.ok _ => Except.error "type error 302: type must be object"

/-!
The wrapper layer itself (modusdb_wrapper.cpp).  Every failure in the
source is `throw std::runtime_error(msg)`; the spec's error taxonomy
distinguishes the four throw sites, so the model gives each site its
own constructor, carrying the exact message string the source builds.
-/

/-- The failure kinds of the wrapper layer, one per throw site. -/
inductive WrapperError where
  /-- checkError, line 25: the engine-reported message, verbatim. -/
  | boundaryError (msg : String)
  /-- Engine::Engine, line 34: no error reported but a sentinel handle. -/
  | handleCreationFailed (msg : String)
  /-- mutate line 107 / query line 132: no error but a null result. -/
  | emptyResultError (msg : String)
  /-- mutate line 117: payload present but the decode threw. -/
  | decodeError (msg : String)
deriving Repr, DecidableEq

/-- What a handle-producing boundary call (`NewEngineC`,
`CreateNamespaceC`, `GetNamespaceC`) left behind when it returned: its
uint64 return value and its `char** err` out-parameter (`none` =
nullptr, `some msg` = a boundary-allocated message). -/
structure HandleResp where
  handle : Nat
  err : Option String
deriving Repr, DecidableEq

/-- What a `char** result, char** err` boundary call (`MutateC`,
`QueryC`) left behind: both out-parameters (`none` = nullptr). -/
structure StrResp where
  result : Option String
  err : Option String
deriving Repr, DecidableEq

/-- checkError (lines 21-27): a non-null error out-parameter means the
message is copied, the buffer freed, and a runtime_error carrying the
copied text thrown; a null one means success. -/
def checkError (err : Option String) : Except WrapperError Unit :=
  match err with
  | some msg => Except.error (WrapperError.boundaryError msg)
  | none => Except.ok ()

/-- The Namespace class: one uint64 handle, set by the constructor. -/
structure Namespace where
  raw ::
  namespace_handle : Nat
deriving Repr, DecidableEq

/-- The Engine class: one uint64 handle, 0 the sentinel for closed. -/
structure Engine where
  raw ::
  engine_handle : Nat
deriving Repr, DecidableEq

/-- The boundary calls an Engine operation makes, with the argument
values the wrapper passes. -/
inductive BoundaryCall where
  | createNamespaceC (engine : Nat)
  | getNamespaceC (engine : Nat) (nsID : Nat)
  | dropAllC (engine : Nat)
  | loadC (engine : Nat) (schemaPath dataPath : String)
  | loadDataC (engine : Nat) (dataDir : String)
  | closeC (engine : Nat)
deriving Repr, DecidableEq

/-- Engine::Engine (lines 29-36): call NewEngineC, checkError, and
throw "Failed to create engine" when no error was reported but the
returned handle is the sentinel 0. -/
def Engine.mk (resp : HandleResp) : Except WrapperError Engine :=
  match checkError resp.err with
  | Except.error e => Except.error e
  | Except.ok () =>
      if resp.handle = 0 then
        Except.error (WrapperError.handleCreationFailed "Failed to create engine")
      else Except.ok (Engine.raw resp.handle)

/-- Engine::createNamespace (lines 44-49): forward engine_handle to
CreateNamespaceC, checkError, wrap whatever handle came back — there
is no sentinel check here.  Returns the result, the engine state after
the call (the method never writes engine_handle), and the boundary
call made. -/
def Engine.createNamespace (e : Engine) (resp : HandleResp) :
    Except WrapperError Namespace × Engine × List BoundaryCall :=
  (match checkError resp.err with
   | Except.error er => Except.error er
   | Except.ok () => Except.ok (Namespace.raw resp.handle),
   e, [BoundaryCall.createNamespaceC e.engine_handle])

/-- Engine::getNamespace (lines 51-56): same shape as createNamespace,
with the logical id forwarded; no sentinel check. -/
def Engine.getNamespace (e : Engine) (nsID : Nat) (resp : HandleResp) :
    Except WrapperError Namespace × Engine × List BoundaryCall :=
  (match checkError resp.err with
   | Except.error er => Except.error er
   | Except.ok () => Except.ok (Namespace.raw resp.handle),
   e, [BoundaryCall.getNamespaceC e.engine_handle nsID])

/-- Engine::dropAll (lines 58-62). -/
def Engine.dropAll (e : Engine) (resp : Option String) :
    Except WrapperError Unit × Engine × List BoundaryCall :=
  (checkError resp, e, [BoundaryCall.dropAllC e.engine_handle])

/-- Engine::load (lines 64-68). -/
def Engine.load (e : Engine) (schemaPath dataPath : String) (resp : Option String) :
    Except WrapperError Unit × Engine × List BoundaryCall :=
  (checkError resp, e, [BoundaryCall.loadC e.engine_handle schemaPath dataPath])

/-- Engine::loadData (lines 70-74). -/
def Engine.loadData (e : Engine) (dataDir : String) (resp : Option String) :
    Except WrapperError Unit × Engine × List BoundaryCall :=
  (checkError resp, e, [BoundaryCall.loadDataC e.engine_handle dataDir])

/-- Engine::close (lines 76-81): when the handle is not the sentinel,
call CloseC with it and store 0; otherwise do nothing.  Returns the
engine state after the call and the boundary calls made. -/
def Engine.close (e : Engine) : Engine × List BoundaryCall :=
  if e.engine_handle ≠ 0 then
    (Engine.raw 0, [BoundaryCall.closeC e.engine_handle])
  else (e, [])

/-- Engine::~Engine (lines 38-42): when the handle is not the sentinel,
run close().  Only the boundary calls are observable afterwards. -/
def Engine.dtor (e : Engine) : List BoundaryCall :=
  if e.engine_handle ≠ 0 then (Engine.close e).2 else []

/-- n successive explicit close() calls, collecting the boundary calls. -/
def Engine.closes : Nat → Engine → Engine × List BoundaryCall
  | 0, e => (e, [])
  | n + 1, e =>
      let (e1, c1) := Engine.close e
      let (e2, c2) := Engine.closes n e1
      (e2, c1 ++ c2)

/-- The C++ Engine class declares a destructor but neither deletes nor
declares a copy constructor (modusdb_wrapper.hpp lines 23-37), so the
implicitly-defaulted copy constructor exists and copies the raw
engine_handle field. -/
def Engine.copyCtor (e : Engine) : Engine := Engine.raw e.engine_handle

/-- Namespace::mutate (lines 99-122), instrumented with how many times
each of the two boundary-allocated buffers is freed:
`(outcome, frees of the err buffer, frees of the result buffer)`.
When the engine reports an error, checkError frees err and throws —
control never reaches the `free(result)` calls, so a result buffer
accompanying the error is freed zero times.  On the null-result path
there is no buffer to free; on the decode-failure and success paths
the result buffer is freed exactly once (lines 116 and 120). -/
def mutateRun (ns : Namespace) (mutations : String) (resp : StrResp) :
    Except WrapperError (List (String × Nat)) × Nat × Nat :=
  match resp.err with
  | some msg => (Except.error (WrapperError.boundaryError msg), 1, 0)
  | none =>
      match resp.result with
      | none =>
          (Except.error (WrapperError.emptyResultError "No result returned from mutation"),
           0, 0)
      | some payload =>
          match decodeMutationResult payload with
          | Except.error e =>
              (Except.error
                 (WrapperError.decodeError ("Failed to parse mutation result: " ++ e)),
               0, 1)
          | Except.ok m => (Except.ok m, 0, 1)

/-- Namespace::mutate's outcome (the thrown error or returned map). -/
def Namespace.mutate (ns : Namespace) (mutations : String) (resp : StrResp) :
    Except WrapperError (List (String × Nat)) :=
  (mutateRun ns mutations resp).1

/-- Namespace::query (lines 124-138), instrumented like mutateRun.  On
success the result buffer's content is copied into a local std::string
and the buffer freed; the copy is returned verbatim. -/
def queryRun (ns : Namespace) (queryStr : String) (resp : StrResp) :
    Except WrapperError String × Nat × Nat :=
  match resp.err with
  | some msg => (Except.error (WrapperError.boundaryError msg), 1, 0)
  | none =>
      match resp.result with
      | none =>
          (Except.error (WrapperError.emptyResultError "No result returned from query"),
           0, 0)
      | some payload => (Except.ok payload, 0, 1)

/-- Namespace::query's outcome. -/
def Namespace.query (ns : Namespace) (queryStr : String) (resp : StrResp) :
    Except WrapperError String :=
  (queryRun ns queryStr resp).1

/-- Namespace::dropData (lines 87-91). -/
def Namespace.dropData (ns : Namespace) (resp : Option String) :
    Except WrapperError Unit :=
  checkError resp

/-- Namespace::alterSchema (lines 93-97). -/
def Namespace.alterSchema (ns : Namespace) (schema : String) (resp : Option String) :
    Except WrapperError Unit :=
  checkError resp

/-!
Interleaving model for concurrent close (claim about atomicity).
`engine_handle` is a plain `uint64_t` (modusdb_wrapper.hpp line 25) —
not `std::atomic`, and close() takes no lock — so the body of close()
performs three separate accesses of the shared field: the load for the
`!= 0` check, the load of CloseC's argument (the call itself), and the
store of 0.  Two threads running close() on the same Engine object are
modelled as two copies of that three-step program over the shared
handle; a schedule is the order in which the threads take steps.
-/

/-- Shared state of two threads (A and B) each running Engine::close on
one Engine object: the shared handle field, each thread's program
counter (0 = before the check, 1 = passed the check and about to call
CloseC, 2 = about to store 0, 3 = finished), and the CloseC calls made
so far (each with its handle argument). -/
structure CloseRace where
  handle : Nat
  pcA : Nat
  pcB : Nat
  closeCalls : List Nat
deriving Repr, DecidableEq

/-- Set thread t's program counter (t = true is thread A). -/
def setPc (t : Bool) (pc : Nat) (s : CloseRace) : CloseRace :=
  if t then { s with pcA := pc } else { s with pcB := pc }

/-- One step of thread t's close(): pc 0 reads the shared handle for
the sentinel check (skipping the whole body when it is 0), pc 1 calls
CloseC with the handle's current value, pc 2 stores the sentinel. -/
def closeStep (s : CloseRace) (t : Bool) : CloseRace :=
  match (if t then s.pcA else s.pcB) with
  | 0 => if s.handle ≠ 0 then setPc t 1 s else setPc t 3 s
  | 1 => { setPc t 2 s with closeCalls := s.closeCalls ++ [s.handle] }
  | 2 => { setPc t 3 s with handle := 0 }
  | _ => s

/-- Run a schedule (the list of thread turns) from a state. -/
def closeRun (s : CloseRace) (sched : List Bool) : CloseRace :=
  sched.foldl closeStep s

/-- The initial state of two concurrent close() calls on an Engine
holding handle h. -/
def closeRaceInit (h : Nat) : CloseRace :=
  CloseRace.mk h 0 0 []

/-!
Helper lemmas shared by the claim theorems.
-/

/-- Any number of close() calls on an engine whose handle is already
the sentinel make no boundary call and leave the state unchanged. -/
theorem Engine.closes_sentinel (n : Nat) (e : Engine) (h : e.engine_handle = 0) :
    Engine.closes n e = (e, []) := by
  induction n with
  | zero => rfl
  | succ m ih => simp [Engine.closes, Engine.close, h, ih]

/-- Converting an object whose values are all number_unsigned yields
exactly the same entries. -/
theorem getMapEntries_unsigned (entries : List (String × Nat)) :
    getMapEntries (entries.map fun p => (p.1, JVal.num (JNum.unsigned p.2)))
      = Except.ok entries := by
  induction entries with
  | nil => rfl
  | cons p rest ih => simp [getMapEntries, getU64, ih]

/-- An engine whose construction succeeded holds a non-sentinel handle
equal to the one the boundary returned. -/
theorem Engine.mk_ok (resp : HandleResp) (st : Engine)
    (hopen : Engine.mk resp = Except.ok st) :
    resp.err = none ∧ resp.handle ≠ 0 ∧ st = Engine.raw resp.handle := by
  cases hre : resp.err with
  | some m => simp [Engine.mk, checkError, hre] at hopen
  | none =>
      by_cases hz : resp.handle = 0
      · simp [Engine.mk, checkError, hre, hz] at hopen
      · simp [Engine.mk, checkError, hre, hz] at hopen
        exact ⟨rfl, hz, hopen.symm⟩

/-- C1: close() is idempotent and the boundary release happens at most
once.  For an Engine whose open succeeded (a non-sentinel handle), the
first close() makes the one CloseC call and stores the sentinel 0;
close() on a sentinel handle is a no-op; and any sequence of n explicit
close() calls followed by the destructor makes exactly one CloseC call,
carrying the original handle. -/
theorem close_released_exactly_once (resp : HandleResp) (st : Engine) (n : Nat)
    (hopen : Engine.mk resp = Except.ok st) :
    st.engine_handle ≠ 0 ∧
    (Engine.close st).1.engine_handle = 0 ∧
    (Engine.close st).2 = [BoundaryCall.closeC st.engine_handle] ∧
    (∀ e : Engine, e.engine_handle = 0 → Engine.close e = (e, [])) ∧
    (Engine.closes n st).2 ++ Engine.dtor (Engine.closes n st).1
      = [BoundaryCall.closeC st.engine_handle] := by
  obtain ⟨-, hz, hst⟩ := Engine.mk_ok resp st hopen
  have hne : st.engine_handle ≠ 0 := by simp [hst, hz]
  refine ⟨hne, by simp [Engine.close, hne], by simp [Engine.close, hne],
    fun e he => by simp [Engine.close, he], ?_⟩
  cases n with
  | zero => simp [Engine.closes, Engine.dtor, Engine.close, hne]
  | succ m =>
      have h0 : Engine.close st = (Engine.raw 0, [BoundaryCall.closeC st.engine_handle]) := by
        simp [Engine.close, hne]
      simp [Engine.closes, h0, Engine.closes_sentinel m (Engine.raw 0) rfl, Engine.dtor]

/-- Witness for C1 at a concrete open response and two explicit closes. -/
theorem close_released_exactly_once_witness :
    Engine.mk (HandleResp.mk 5 none) = Except.ok (Engine.raw 5) ∧
    (Engine.closes 2 (Engine.raw 5)).2 ++ Engine.dtor (Engine.closes 2 (Engine.raw 5)).1
      = [BoundaryCall.closeC 5] :=
  ⟨rfl, (close_released_exactly_once (HandleResp.mk 5 none) (Engine.raw 5) 2 rfl).2.2.2.2⟩

/-- C2 counterexample: createNamespace with no reported error and the
sentinel handle 0 returned does not fail with HandleCreationFailed —
it returns a Namespace wrapping the sentinel handle. -/
theorem createNamespace_wraps_sentinel :
    (Engine.createNamespace (Engine.raw 5) (HandleResp.mk 0 none)).1
      = Except.ok (Namespace.raw 0) ∧
    (Engine.createNamespace (Engine.raw 5) (HandleResp.mk 0 none)).1
      ≠ Except.error (WrapperError.handleCreationFailed "Failed to create engine") := by
  exact ⟨rfl, by simp [Engine.createNamespace, checkError]⟩

/-- C2 amended: only the Engine constructor performs the sentinel
check.  When the boundary reports no error but returns handle 0, the
constructor fails with HandleCreationFailed, while createNamespace and
getNamespace perform no such check and return a Namespace wrapping the
sentinel handle. -/
theorem sentinel_check_constructor_only (resp : HandleResp) (e : Engine) (nsID : Nat)
    (herr : resp.err = none) (hz : resp.handle = 0) :
    Engine.mk resp
      = Except.error (WrapperError.handleCreationFailed "Failed to create engine") ∧
    (Engine.createNamespace e resp).1 = Except.ok (Namespace.raw 0) ∧
    (Engine.getNamespace e nsID resp).1 = Except.ok (Namespace.raw 0) := by
  obtain ⟨h, er⟩ := resp
  simp only [] at herr hz
  subst herr hz
  exact ⟨rfl, rfl, rfl⟩

/-- Witness for C2's amended theorem at the concrete response (0, no error). -/
theorem sentinel_check_constructor_only_witness :
    Engine.mk (HandleResp.mk 0 none)
      = Except.error (WrapperError.handleCreationFailed "Failed to create engine") ∧
    (Engine.createNamespace (Engine.raw 3) (HandleResp.mk 0 none)).1
      = Except.ok (Namespace.raw 0) ∧
    (Engine.getNamespace (Engine.raw 3) 7 (HandleResp.mk 0 none)).1
      = Except.ok (Namespace.raw 0) :=
  sentinel_check_constructor_only (HandleResp.mk 0 none) (Engine.raw 3) 7 rfl rfl

/-- C3: whenever a boundary call returns with a non-null error
out-parameter, the operation fails with boundaryError carrying the
engine's message verbatim, for every fallible operation of the layer;
for mutate and query this holds for every accompanying result value
(`res` ranges over both a null and a non-null result buffer), so no
result is ever returned alongside a reported error. -/
theorem boundary_error_verbatim (msg : String) (h nsID : Nat) (e : Engine)
    (ns : Namespace) (mutations queryStr schema p q d : String) (res : Option String) :
    Engine.mk (HandleResp.mk h (some msg))
      = Except.error (WrapperError.boundaryError msg) ∧
    (Engine.createNamespace e (HandleResp.mk h (some msg))).1
      = Except.error (WrapperError.boundaryError msg) ∧
    (Engine.getNamespace e nsID (HandleResp.mk h (some msg))).1
      = Except.error (WrapperError.boundaryError msg) ∧
    (Engine.dropAll e (some msg)).1 = Except.error (WrapperError.boundaryError msg) ∧
    (Engine.load e p q (some msg)).1 = Except.error (WrapperError.boundaryError msg) ∧
    (Engine.loadData e d (some msg)).1 = Except.error (WrapperError.boundaryError msg) ∧
    Namespace.dropData ns (some msg) = Except.error (WrapperError.boundaryError msg) ∧
    Namespace.alterSchema ns schema (some msg)
      = Except.error (WrapperError.boundaryError msg) ∧
    Namespace.mutate ns mutations (StrResp.mk res (some msg))
      = Except.error (WrapperError.boundaryError msg) ∧
    Namespace.query ns queryStr (StrResp.mk res (some msg))
      = Except.error (WrapperError.boundaryError msg) :=
  ⟨rfl, rfl, rfl, rfl, rfl, rfl, rfl, rfl, rfl, rfl⟩

/-- C4: mutate has exactly the three failure modes and one success
mode: boundaryError when the engine reports an error, emptyResultError
when no error is reported but the result buffer is null, decodeError
(a kind distinct from boundaryError) when the payload is present but
does not decode as a flat string-to-uint64 mapping, and otherwise the
decoded mapping. -/
theorem mutate_failure_modes (ns : Namespace) (mutations : String) (resp : StrResp) :
    (∀ msg, resp.err = some msg →
        Namespace.mutate ns mutations resp
          = Except.error (WrapperError.boundaryError msg)) ∧
    (resp.err = none → resp.result = none →
        Namespace.mutate ns mutations resp
          = Except.error (WrapperError.emptyResultError "No result returned from mutation")) ∧
    (∀ payload e, resp.err = none → resp.result = some payload →
        decodeMutationResult payload = Except.error e →
        Namespace.mutate ns mutations resp
          = Except.error
              (WrapperError.decodeError ("Failed to parse mutation result: " ++ e))) ∧
    (∀ payload m, resp.err = none → resp.result = some payload →
        decodeMutationResult payload = Except.ok m →
        Namespace.mutate ns mutations resp = Except.ok m) := by
  obtain ⟨res, er⟩ := resp
  refine ⟨fun msg hmsg => ?_, fun h1 h2 => ?_, fun payload ex h1 h2 h3 => ?_,
    fun payload m h1 h2 h3 => ?_⟩ <;>
    simp only [] at * <;>
    subst_vars <;>
    simp [Namespace.mutate, mutateRun, *]

/-- Witness for C4 at a concrete successful decode. -/
theorem mutate_failure_modes_witness :
    Namespace.mutate (Namespace.raw 1) "m" (StrResp.mk (some "\x7b\"a\":2\x7d") none)
      = Except.ok [("a", 2)] :=
  (mutate_failure_modes (Namespace.raw 1) "m"
      (StrResp.mk (some "\x7b\"a\":2\x7d") none)).2.2.2 "\x7b\"a\":2\x7d" [("a", 2)]
    rfl rfl (by rfl)

/-- C5 counterexample: a payload whose value 1.5 is not an unsigned
integer does not cause a DecodeError — mutate succeeds and silently
coerces it (static_cast of the double 1.5 truncates to 1). -/
theorem mutate_coerces_float_value :
    Namespace.mutate (Namespace.raw 1) "m"
        (StrResp.mk (some "\x7b\"a\":1.5\x7d") none)
      = Except.ok [("a", 1)] := by rfl

/-- C5 amended: for every successful mutate call whose payload is a
well-formed flat JSON object whose values are all unsigned in-range
integers, the decoded mapping contains exactly the payload's keys,
each bound to its value — no key dropped, invented, or value changed.
A numeric value that is not an unsigned in-range integer is, however,
silently coerced with static_cast semantics instead of causing a
DecodeError (only a non-number value does). -/
theorem mutate_decode_exact_on_unsigned (ns : Namespace) (mutations : String)
    (s : String) (entries : List (String × Nat))
    (hparse : jsonParse s
      = Except.ok (JVal.obj (entries.map fun p => (p.1, JVal.num (JNum.unsigned p.2))))) :
    Namespace.mutate ns mutations (StrResp.mk (some s) none) = Except.ok entries ∧
    (Namespace.mutate ns mutations (StrResp.mk (some s) none)).toOption.map
        (List.map Prod.fst)
      = some (entries.map Prod.fst) := by
  have h1 : decodeMutationResult s = Except.ok entries := by
    simp [decodeMutationResult, hparse, getMapEntries_unsigned]
  constructor
  · simp [Namespace.mutate, mutateRun, h1]
  · simp [Namespace.mutate, mutateRun, h1, Except.toOption]

/-- Witness for C5's amended theorem at the spec's own example payload
shape (keys ref1 and ref2, two fresh positive ids). -/
theorem mutate_decode_exact_on_unsigned_witness :
    Namespace.mutate (Namespace.raw 1) "m"
        (StrResp.mk (some "\x7b\"ref1\":1,\"ref2\":2\x7d") none)
      = Except.ok [("ref1", 1), ("ref2", 2)] :=
  (mutate_decode_exact_on_unsigned (Namespace.raw 1) "m"
      "\x7b\"ref1\":1,\"ref2\":2\x7d" [("ref1", 1), ("ref2", 2)] (by rfl)).1

/-- C6: query passes the non-null result payload through verbatim when
no error is reported, fails with emptyResultError on a null payload
with no error, and with boundaryError when an error is reported. -/
theorem query_passthrough_modes (ns : Namespace) (queryStr : String) (resp : StrResp) :
    (∀ payload, resp.err = none → resp.result = some payload →
        Namespace.query ns queryStr resp = Except.ok payload) ∧
    (resp.err = none → resp.result = none →
        Namespace.query ns queryStr resp
          = Except.error (WrapperError.emptyResultError "No result returned from query")) ∧
    (∀ msg, resp.err = some msg →
        Namespace.query ns queryStr resp
          = Except.error (WrapperError.boundaryError msg)) := by
  obtain ⟨res, er⟩ := resp
  refine ⟨fun payload h1 h2 => ?_, fun h1 h2 => ?_, fun msg h1 => ?_⟩ <;>
    simp only [] at * <;>
    subst_vars <;>
    simp [Namespace.query, queryRun]

/-- Witness for C6: a concrete opaque payload comes back byte for byte. -/
theorem query_passthrough_modes_witness :
    Namespace.query (Namespace.raw 1) "q"
        (StrResp.mk (some "\x7b\"all\":[\x7b\"uid\":\"0x1\"\x7d]\x7d") none)
      = Except.ok "\x7b\"all\":[\x7b\"uid\":\"0x1\"\x7d]\x7d" :=
  (query_passthrough_modes (Namespace.raw 1) "q"
      (StrResp.mk (some "\x7b\"all\":[\x7b\"uid\":\"0x1\"\x7d]\x7d") none)).1
    "\x7b\"all\":[\x7b\"uid\":\"0x1\"\x7d]\x7d" rfl rfl

/-- C7: the code contradicts the release-exactly-once obligation.  At
the failing input (an engine-reported error accompanied by a non-null
result buffer), mutate frees the error buffer once but the non-null
result buffer zero times — the buffer leaks, where the claim requires
exactly one release of every non-null boundary buffer. -/
theorem mutate_error_path_leaks_result_buffer :
    mutateRun (Namespace.raw 1) "m"
        (StrResp.mk (some "\x7b\"a\":2\x7d") (some "boom"))
      = (Except.error (WrapperError.boundaryError "boom"), 1, 0) := by rfl

/-- C8 counterexample: with the handle field a plain uint64_t and no
lock, an interleaving of two concurrent close() calls on handle 5 in
which both threads pass the sentinel check before either stores 0
performs the boundary release CloseC(5) twice. -/
theorem concurrent_close_double_release :
    closeRun (closeRaceInit 5) [true, false, true, false, true, false]
      = CloseRace.mk 0 3 3 [5, 5] := by rfl

/-- C8 amended: the check and the invalidation in close() are plain
non-atomic accesses, not an atomic check-and-set.  When the two
close() calls do not overlap, the second observes the sentinel and is
a no-op (one boundary release); but under the interleaving in which
both threads pass the check before either stores the sentinel, the
boundary release is performed twice. -/
theorem close_check_not_atomic (h : Nat) (hne : h ≠ 0) :
    closeRun (closeRaceInit h) [true, true, true, false, false, false]
      = CloseRace.mk 0 3 3 [h] ∧
    closeRun (closeRaceInit h) [true, false, true, false, true, false]
      = CloseRace.mk 0 3 3 [h, h] := by
  constructor <;> simp [closeRun, closeRaceInit, closeStep, setPc, hne]

/-- Witness for C8's amended theorem on handle 7. -/
theorem close_check_not_atomic_witness :
    closeRun (closeRaceInit 7) [true, true, true, false, false, false]
      = CloseRace.mk 0 3 3 [7] ∧
    closeRun (closeRaceInit 7) [true, false, true, false, true, false]
      = CloseRace.mk 0 3 3 [7, 7] :=
  close_check_not_atomic 7 (by decide)

/-- C9: the Engine class does not prevent copying (it declares a
destructor but no copy operations, so the implicitly-defaulted copy
constructor copies the raw handle field).  Destroying an Engine that
holds a non-sentinel handle and a copy of it each passes the
destructor's sentinel check, so the boundary release is invoked twice
for the same handle — release-exactly-once holds only for Engine
values that are never copied. -/
theorem engine_copy_double_release (e : Engine) (h : e.engine_handle ≠ 0) :
    Engine.dtor e = [BoundaryCall.closeC e.engine_handle] ∧
    Engine.dtor e ++ Engine.dtor (Engine.copyCtor e)
      = [BoundaryCall.closeC e.engine_handle, BoundaryCall.closeC e.engine_handle] := by
  constructor <;> simp [Engine.dtor, Engine.close, Engine.copyCtor, h]

/-- Witness for C9 on handle 9. -/
theorem engine_copy_double_release_witness :
    Engine.dtor (Engine.raw 9) = [BoundaryCall.closeC 9] ∧
    Engine.dtor (Engine.raw 9) ++ Engine.dtor (Engine.copyCtor (Engine.raw 9))
      = [BoundaryCall.closeC 9, BoundaryCall.closeC 9] :=
  engine_copy_double_release (Engine.raw 9) (by decide)

/-- C10: no Engine operation other than close checks or modifies the
stored handle: createNamespace, getNamespace, dropAll, load and
loadData each leave the engine state unchanged and make their boundary
call with the current handle value — whatever it is, including the
sentinel 0 left behind by close(), as the final conjunct shows for a
closed engine — so use-after-close detection is delegated entirely to
the boundary. -/
theorem ops_forward_handle_unchanged (e : Engine) (r1 r2 : HandleResp) (nsID : Nat)
    (r3 r4 r5 : Option String) (p q d : String) :
    (Engine.createNamespace e r1).2
      = (e, [BoundaryCall.createNamespaceC e.engine_handle]) ∧
    (Engine.getNamespace e nsID r2).2
      = (e, [BoundaryCall.getNamespaceC e.engine_handle nsID]) ∧
    (Engine.dropAll e r3).2 = (e, [BoundaryCall.dropAllC e.engine_handle]) ∧
    (Engine.load e p q r4).2 = (e, [BoundaryCall.loadC e.engine_handle p q]) ∧
    (Engine.loadData e d r5).2 = (e, [BoundaryCall.loadDataC e.engine_handle d]) ∧
    (e.engine_handle ≠ 0 →
      (Engine.createNamespace (Engine.close e).1 r1).2
        = ((Engine.close e).1, [BoundaryCall.createNamespaceC 0])) := by
  refine ⟨rfl, rfl, rfl, rfl, rfl, fun hne => ?_⟩
  simp [Engine.close, hne, Engine.createNamespace]

/-- Witness for C10's use-after-close conjunct on handle 4. -/
theorem ops_forward_handle_unchanged_witness :
    (Engine.createNamespace (Engine.close (Engine.raw 4)).1 (HandleResp.mk 8 none)).2
      = ((Engine.close (Engine.raw 4)).1, [BoundaryCall.createNamespaceC 0]) :=
  (ops_forward_handle_unchanged (Engine.raw 4) (HandleResp.mk 8 none)
      (HandleResp.mk 8 none) 2 none none none "s" "t" "u").2.2.2.2.2 (by decide)
